import Mathlib

/-! Verification of the model-serving pool and routing layer
(`src/model/model_pool.py`, `src/model/model_router.py`).

The Python classes are shallowly embedded as Lean structures with explicit
state passing.  Machine-level details that no verified property inspects are
abstracted as follows:

* the loaded model handle is opaque: a `ModelInstance` keeps only its
  `instance_id`, `usage_count` and lock state; the backend call made by
  `predict` / `predict_proba` is passed in explicitly as a function returning
  `Except` (a Python exception becomes `Except.error`);
* the filesystem and the pickle deserializer consulted by
  `ModelPool.initialize` are supplied as an `InitEnv` record
  (path-existence test and load success), together with the two settings
  values the code reads (`settings.MODEL_POOL_SIZE`, `settings.MODEL_PATH`
  already resolved against the project root);
* `queue.Queue` is a FIFO list of instance ids: `put` appends at the back,
  `get` pops the front; the queue is unbounded, so `put` never blocks;
* Python exceptions escaping a method are modelled by returning the mutated
  state together with the raised error, since the Python code mutates `self`
  in place and a raise does not roll those mutations back.
-/

namespace ModelServing

/-- State of one `ModelInstance` (model_pool.py lines 19-66).  The wrapped
model handle is omitted: it is opaque to every property verified here.
`locked` mirrors `self.lock` (held strictly inside `predict` /
`predict_proba`). -/
structure ModelInstance where
  instance_id : Nat
  usage_count : Nat
  locked : Bool
deriving DecidableEq, Repr

/-- Embeds `ModelInstance.predict` (model_pool.py lines 39-51): `with self.lock:`
increment `usage_count`, then forward to `self.model.predict(data)`.  The
backend call is the function `model_predict`; a raising call is
`Except.error`.  The `with` statement releases the lock on both normal and
exceptional exit, and the increment precedes the backend call, so an
exception does not undo it. -/
def ModelInstance.predict {α β : Type} (inst : ModelInstance)
    (model_predict : α → Except String β) (data : α) :
    Except String β × ModelInstance :=
  let entered := { inst with locked := true }
  let counted := { entered with usage_count := entered.usage_count + 1 }
  (model_predict data, { counted with locked := false })

/-- Embeds `ModelInstance.predict_proba` (model_pool.py lines 53-66): identical
structure to `predict`, forwarding to `self.model.predict_proba(data)`. -/
def ModelInstance.predict_proba {α β : Type} (inst : ModelInstance)
    (model_predict_proba : α → Except String β) (data : α) :
    Except String β × ModelInstance :=
  let entered := { inst with locked := true }
  let counted := { entered with usage_count := entered.usage_count + 1 }
  (model_predict_proba data, { counted with locked := false })

/-- State of a `ModelPool` (model_pool.py lines 69-281).  `pool` is the FIFO
free-list of `queue.Queue`, holding instance ids; `model_instances` is the
list `self._model_instances`; `pool_size` is `self._pool_size`;
`model_path` is `self._model_path`. -/
structure ModelPool where
  pool : List Nat
  model_instances : List ModelInstance
  pool_size : Nat
  model_path : Option String
deriving DecidableEq, Repr

/-- The state produced by `ModelPool.__init__` on the fresh singleton
(model_pool.py lines 93-102): empty queue, no instances, size `0`, no
path. -/
def ModelPool.empty : ModelPool :=
  { pool := [], model_instances := [], pool_size := 0, model_path := none }

/-- Errors raised by `ModelPool.initialize`: `FileNotFoundError` when the
model file does not exist, and the wrapped pickle-load failure (the spec's
`ModelLoadError.NotFound` / `ModelLoadError.Corrupt`). -/
inductive InitError where
  | notFound
  | corrupt
deriving DecidableEq, Repr

/-- Errors raised by `ModelPool.acquire` / `acquire_async`: `RuntimeError`
when the pool was never initialized, `TimeoutError` when no instance frees
within the deadline (the spec's `NotInitialized` / `AcquireTimeout`). -/
inductive AcqError where
  | notInitialized
  | timeout
deriving DecidableEq, Repr

/-- The environment `initialize` consults: the two settings values it reads
and the outcome of the filesystem-existence check and of `pickle.load` per
path.  `settingsModelPath` stands for `settings.MODEL_PATH` already resolved
against the project root (lines 131-134). -/
structure InitEnv where
  settingsPoolSize : Nat
  settingsModelPath : String
  fsExists : String → Bool
  loadOk : String → Bool

/-- The instance-creation loop of `initialize` (model_pool.py lines 159-174):
for `i in range(n)`, build `ModelInstance(model, i)` (`usage_count = 0`,
lock free), append it to `self._model_instances` and `put` it on the queue.
Whether the per-slot copy succeeds (isolated copy) or fails (shared handle)
leaves the recorded state identical, since the handle is opaque here. -/
def ModelPool.populate (p : ModelPool) (n : Nat) : ModelPool :=
  { p with
    model_instances :=
      p.model_instances ++ (List.range n).map (fun i => ⟨i, 0, false⟩),
    pool := p.pool ++ List.range n }

/-- Embeds `ModelPool.initialize` (model_pool.py lines 104-175).  Returns the
resulting state together with the raised error, if any; note that
`self._pool_size` and `self._model_path` are assigned *before* the
existence check and the pickle load, so those assignments survive a raise.
`base_model` records whether a pre-loaded handle was passed. -/
def ModelPool.initialize (p : ModelPool) (env : InitEnv)
    (pool_size : Option Nat) (model_path : Option String)
    (base_model : Bool) : ModelPool × Option InitError :=
  if 0 < p.pool_size then
    (p, none)
  else
    let ps := pool_size.getD env.settingsPoolSize
    let p1 := { p with pool_size := ps }
    if base_model then
      let p2 :=
        match model_path with
        | some mp => { p1 with model_path := some mp }
        | none => p1
      (p2.populate ps, none)
    else
      let mp :=
        match model_path with
        | some mp => mp
        | none => env.settingsModelPath
      let p2 := { p1 with model_path := some mp }
      if env.fsExists mp then
        if env.loadOk mp then (p2.populate ps, none)
        else (p2, some InitError.corrupt)
      else (p2, some InitError.notFound)

/-- Embeds `ModelPool.acquire` (model_pool.py lines 177-205): raise `RuntimeError`
if the pool was never initialized; otherwise `self._pool.get(timeout)` —
pop the front of the FIFO free-list, or `TimeoutError` when the wait on an
empty queue expires (in this sequential model an empty free-list times
out). A raising acquire leaves the state unchanged. -/
def ModelPool.acquire (p : ModelPool) : Except AcqError (Nat × ModelPool) :=
  if p.pool_size = 0 then
    Except.error AcqError.notInitialized
  else
    match p.pool with
    | [] => Except.error AcqError.timeout
    | i :: rest => Except.ok (i, { p with pool := rest })

/-- Embeds `ModelPool.release` (model_pool.py lines 207-214): unconditionally
`self._pool.put(instance)` — append to the back of the unbounded free-list.
No check that the instance came from this pool or was acquired. -/
def ModelPool.release (p : ModelPool) (i : Nat) : ModelPool :=
  { p with pool := p.pool ++ [i] }

/-- Embeds `ModelPool.acquire_async` (model_pool.py lines 216-247): the same
not-initialized check, then `self._pool.get` delegated to an executor
thread via `run_in_executor`; the queue operation and its outcomes are
identical to `acquire`. -/
def ModelPool.acquire_async (p : ModelPool) : Except AcqError (Nat × ModelPool) :=
  p.acquire

/-- Banker's rounding of an exact rational, modelling Python's built-in
`round` applied to the quotient (the binary floating-point representation
of that quotient is abstracted to the exact rational). -/
def roundHalfEven (q : ℚ) : ℤ :=
  let f := ⌊q⌋
  let r := q - (f : ℚ)
  if r < 1 / 2 then f
  else if 1 / 2 < r then f + 1
  else if f % 2 = 0 then f
  else f + 1

/-- Models `round(x, 2)`: round to two decimal places. -/
def roundTo2 (q : ℚ) : ℚ :=
  ((roundHalfEven (q * 100) : ℚ)) / 100

/-- The dict returned by `ModelPool.get_stats` (model_pool.py lines
249-272). `in_use` is an integer because `self._pool_size - available` can
be negative after extra releases. -/
structure StatsSnapshot where
  pool_size : Nat
  available : Nat
  in_use : Int
  total_predictions : Nat
  avg_usage_per_instance : ℚ
  model_path : Option String
deriving DecidableEq, Repr

/-- Embeds `ModelPool.get_stats` (model_pool.py lines 249-272): `available =
qsize()`, `in_use = pool_size - available`, `total` sums the usage
counters, `avg = round(total / pool_size, 2)` guarded by `pool_size > 0`. -/
def ModelPool.get_stats (p : ModelPool) : StatsSnapshot :=
  let available := p.pool.length
  let in_use : Int := (p.pool_size : Int) - (available : Int)
  let total_usage : Nat := (p.model_instances.map (fun inst => inst.usage_count)).sum
  let avg_usage : ℚ :=
    if 0 < p.pool_size then roundTo2 ((total_usage : ℚ) / (p.pool_size : ℚ))
    else 0
  { pool_size := p.pool_size
    available := available
    in_use := in_use
    total_predictions := total_usage
    avg_usage_per_instance := avg_usage
    model_path := p.model_path }

/-- Embeds `ModelPool.is_initialized` (model_pool.py lines 274-281):
`self._pool_size > 0`. -/
def ModelPool.is_initialized (p : ModelPool) : Bool :=
  decide (0 < p.pool_size)

/-- Embeds `ModelContextManager` (model_pool.py lines 284-332) run over a block
`body`: `__aenter__` acquires (suspending form); the block computes on the
acquired instance id and may raise (`Except.error`); `__aexit__` releases
the instance whenever entry succeeded and returns `False`, so a block
error propagates unchanged.  A failing `__aenter__` propagates the acquire
error with no release. -/
def ModelContextManager.run {E B : Type} (p : ModelPool)
    (body : Nat → Except E B) : Except (Sum AcqError E) B × ModelPool :=
  match p.acquire_async with
  | Except.error a => (Except.error (Sum.inl a), p)
  | Except.ok (i, p1) =>
      match body i with
      | Except.ok b => (Except.ok b, p1.release i)
      | Except.error e => (Except.error (Sum.inr e), p1.release i)

/-- Increment the usage counter of the instance at position `j` of
`self._model_instances`; positions beyond the list are left unchanged.
This is the pool-level state effect of one *successful*
`ModelInstance.predict` / `predict_proba` call on that instance (the lock
is taken and released within the call, so it stays free). -/
def bumpUsage : List ModelInstance → Nat → List ModelInstance
  | [], _ => []
  | inst :: rest, 0 => { inst with usage_count := inst.usage_count + 1 } :: rest
  | inst :: rest, j + 1 => inst :: bumpUsage rest j

/-- State of the pool after a successful `predict` on the instance at
position `j` of `self._model_instances`. -/
def ModelPool.recordPredict (p : ModelPool) (j : Nat) : ModelPool :=
  { p with model_instances := bumpUsage p.model_instances j }

/-- State of a `ModelRouter` (model_router.py lines 22-47): the registry
`self._pools` is an insertion-ordered dict from backend tag to pool,
modelled as an association list, plus `self._default_type`.  Tags are the
enum values (`"sklearn"`, `"onnx"`), kept as strings. -/
structure ModelRouter where
  pools : List (String × ModelPool)
  default_type : String

/-- The dict returned by `ModelRouter.get_stats` (model_router.py lines
127-151): the default tag plus, per registered tag, either that pool's
stats snapshot or the captured error string (`{"error": str(e)}`). -/
structure RouterStats where
  default_type : String
  pools : List (String × Except String StatsSnapshot)

/-- Embeds `ModelRouter.get_stats` (model_router.py lines 127-151): iterate over
the registered pools; each `pool.get_stats()` call sits in a
`try`/`except` that stores the stats on success and an error record on
failure, so a failing pool never aborts the loop.  The outcome of each
per-pool call is supplied by `statsOf` (in the embedded pool
`ModelPool.get_stats` is total, but the Python call site guards against
any raise). -/
def ModelRouter.get_stats (r : ModelRouter)
    (statsOf : ModelPool → Except String StatsSnapshot) : RouterStats :=
  { default_type := r.default_type
    pools := r.pools.foldl (fun acc tp => acc ++ [(tp.1, statsOf tp.2)]) [] }

/-- An arbitrary but fixed environment for initializing with a pre-loaded
`base_model`, where the filesystem and loader are never consulted. -/
def baseEnv : InitEnv :=
  { settingsPoolSize := 3
    settingsModelPath := "models/model.pkl"
    fsExists := fun _ => true
    loadOk := fun _ => true }

/-- The pool produced by a successful `initialize(pool_size = n,
base_model = model)` on the fresh singleton state. -/
def initializedPool (n : Nat) : ModelPool :=
  ( ModelPool.initialize ModelPool.empty baseEnv (some n) none true).1

/-- An environment whose filesystem has no files, for exercising the
missing-model-file path of `initialize`. -/
def missingEnv : InitEnv :=
  { settingsPoolSize := 3
    settingsModelPath := "models/model.pkl"
    fsExists := fun _ => false
    loadOk := fun _ => false }

/-- Inversion of a successful `acquire`: the free-list had the returned id
at its front, and only the free-list changed. -/
theorem acquire_ok_spec {p p' : ModelPool} {i : Nat}
    (h : p.acquire = Except.ok (i, p')) :
    p.pool = i :: p'.pool ∧ p'.pool_size = p.pool_size ∧
    p'.model_instances = p.model_instances ∧ p'.model_path = p.model_path := by
  unfold ModelPool.acquire at h
  split at h
  · cases h
  · cases hp : p.pool with
    | nil => rw [hp] at h; cases h
    | cons j rest =>
        rw [hp] at h
        simp only [Except.ok.injEq, Prod.mk.injEq] at h
        obtain ⟨rfl, rfl⟩ := h
        simp [hp]

/-- C9: `ModelPool.get_stats` on an uninitialized pool is total: no raise
and no division by zero — the `pool_size > 0` guard yields an average of
`0`, and every reported figure is zero with no model path. -/
theorem get_stats_uninitialized_total :
    ModelPool.empty.get_stats =
      { pool_size := 0, available := 0, in_use := 0, total_predictions := 0,
        avg_usage_per_instance := 0, model_path := none } := by
  rfl

/-- C2: `initialize` on a fresh pool with a non-existent model path raises
`FileNotFoundError` (the `NotFound` load error) as the claim says, but the
pool is NOT left uninitialized: `self._pool_size` was already assigned, so
`is_initialized()` returns `true` and the state differs from the fresh
state (the model path is recorded too). -/
theorem initialize_missing_path_breaks_pool :
    ( ModelPool.initialize ModelPool.empty missingEnv (some 3) (some "/missing.bin") false).2
        = some InitError.notFound ∧
    (( ModelPool.initialize ModelPool.empty missingEnv (some 3) (some "/missing.bin") false).1).is_initialized
        = true ∧
    ( ModelPool.initialize ModelPool.empty missingEnv (some 3) (some "/missing.bin") false).1
        ≠ ModelPool.empty := by
  refine ⟨rfl, rfl, ?_⟩
  decide

/-- C10: `release` is unconditional — it always appends to the free-list,
growing it by exactly one, with no check that the instance was ever
acquired; releasing into an already-full pool makes the free-list exceed
`pool_size` and `get_stats` then reports `in_use = -1`. -/
theorem release_unconditional (p : ModelPool) (i : Nat) :
    (p.release i).pool.length = p.pool.length + 1 ∧
    (p.pool.length = p.pool_size → ((p.release i).get_stats).in_use = -1) := by
  constructor
  · simp [ModelPool.release]
  · intro h
    simp only [ModelPool.release, ModelPool.get_stats, List.length_append,
      List.length_cons, List.length_nil]
    rw [h]
    push_cast
    ring

/-- Witness for C10: one extra release on a full pool of size 2. -/
theorem release_unconditional_witness :
    ((initializedPool 2).release 0).pool.length = (initializedPool 2).pool.length + 1 ∧
    (((initializedPool 2).release 0).get_stats).in_use = -1 := by
  have h := release_unconditional (initializedPool 2) 0
  exact ⟨h.1, h.2 (by decide)⟩

/-- C6: `initialize` is idempotent — on an already-initialized pool
(`self._pool_size > 0`) it returns immediately, raising nothing and
changing nothing, whatever arguments are passed. -/
theorem initialize_idempotent (p : ModelPool) (env : InitEnv) (ps : Option Nat)
    (mp : Option String) (bm : Bool) (h : p.is_initialized = true) :
    ModelPool.initialize p env ps mp bm = (p, none) := by
  have hpos : 0 < p.pool_size := by
    simpa [ModelPool.is_initialized] using h
  simp [ ModelPool.initialize, hpos]

/-- Witness for C6: a second `initialize` with a different size and path on
an initialized pool of size 2 is a no-op. -/
theorem initialize_idempotent_witness :
    ModelPool.initialize (initializedPool 2) missingEnv (some 7) (some "/other.bin") false
      = (initializedPool 2, none) :=
  initialize_idempotent (initializedPool 2) missingEnv (some 7) (some "/other.bin") false (by rfl)

/-- C3 (counterexample): a failing backend call does NOT leave
`usage_count` unchanged — the increment happens before the backend call
inside the `with` block and is not rolled back on the raise. -/
theorem predict_failure_usage_count_changes :
    ¬ ((({ instance_id := 0, usage_count := 0, locked := false } : ModelInstance).predict
          (fun _ : Unit => (Except.error "boom" : Except String Nat)) ()).2.usage_count
        = ({ instance_id := 0, usage_count := 0, locked := false } : ModelInstance).usage_count) := by
  decide

/-- C3 (amended): when the backend call of `predict` or `predict_proba`
raises, the error is propagated unchanged and the lock is released, but
`usage_count` is incremented by one — it counts attempted calls, not
successful ones. -/
theorem predict_failure_effect {α β : Type} (inst : ModelInstance)
    (f : α → Except String β) (d : α) (e : String) (hf : f d = Except.error e) :
    (inst.predict f d).1 = Except.error e ∧
    (inst.predict f d).2.locked = false ∧
    (inst.predict f d).2.usage_count = inst.usage_count + 1 ∧
    (inst.predict_proba f d).1 = Except.error e ∧
    (inst.predict_proba f d).2.locked = false ∧
    (inst.predict_proba f d).2.usage_count = inst.usage_count + 1 := by
  simp [ModelInstance.predict, ModelInstance.predict_proba, hf]

/-- Witness for C3 (amended) at a concrete instance and failing backend. -/
theorem predict_failure_effect_witness :
    (({ instance_id := 0, usage_count := 5, locked := false } : ModelInstance).predict
        (fun _ : Unit => (Except.error "boom" : Except String Nat)) ()).1
      = Except.error "boom" ∧
    (({ instance_id := 0, usage_count := 5, locked := false } : ModelInstance).predict
        (fun _ : Unit => (Except.error "boom" : Except String Nat)) ()).2.locked = false ∧
    (({ instance_id := 0, usage_count := 5, locked := false } : ModelInstance).predict
        (fun _ : Unit => (Except.error "boom" : Except String Nat)) ()).2.usage_count
      = ({ instance_id := 0, usage_count := 5, locked := false } : ModelInstance).usage_count + 1 ∧
    (({ instance_id := 0, usage_count := 5, locked := false } : ModelInstance).predict_proba
        (fun _ : Unit => (Except.error "boom" : Except String Nat)) ()).1
      = Except.error "boom" ∧
    (({ instance_id := 0, usage_count := 5, locked := false } : ModelInstance).predict_proba
        (fun _ : Unit => (Except.error "boom" : Except String Nat)) ()).2.locked = false ∧
    (({ instance_id := 0, usage_count := 5, locked := false } : ModelInstance).predict_proba
        (fun _ : Unit => (Except.error "boom" : Except String Nat)) ()).2.usage_count
      = ({ instance_id := 0, usage_count := 5, locked := false } : ModelInstance).usage_count + 1 :=
  predict_failure_effect { instance_id := 0, usage_count := 5, locked := false }
    (fun _ : Unit => (Except.error "boom" : Except String Nat)) () "boom" rfl

/-- Pool states reachable from a successful `initialize(pool_size = n,
base_model = model)` by sequences of successful `acquire` and matching
`release` calls.  `out` is the multiset (as a list) of instance ids handed
out and not yet released; the `rel` rule requires the released id to be
outstanding, i.e. each release corresponds to exactly one prior successful
acquire.  A raising `acquire` leaves the state unchanged, so it does not
add transitions. -/
inductive Reachable (n : Nat) : ModelPool → List Nat → Prop where
  | init : Reachable n (initializedPool n) []
  | acq {p p' : ModelPool} {out : List Nat} {i : Nat} :
      Reachable n p out → p.acquire = Except.ok (i, p') → Reachable n p' (i :: out)
  | rel {p : ModelPool} {out : List Nat} {i : Nat} :
      Reachable n p out → i ∈ out → Reachable n (p.release i) (out.erase i)

/-- C1: in every reachable state of a pool initialized with size `n`,
`acquired + available = n` (with `acquired` the number of instances handed
out and not yet released and `available` the free-list length), and the
pool size stays `n` forever. -/
theorem pool_invariant {n : Nat} {p : ModelPool} {out : List Nat}
    (h : Reachable n p out) :
    out.length + p.pool.length = n ∧ p.pool_size = n := by
  induction h with
  | init =>
      constructor
      · simp [initializedPool, ModelPool.initialize, ModelPool.populate,
          ModelPool.empty]
      · simp [initializedPool, ModelPool.initialize, ModelPool.populate,
          ModelPool.empty]
  | acq _ hacq ih =>
      obtain ⟨h1, h2⟩ := ih
      obtain ⟨hpool, hsize, -, -⟩ := acquire_ok_spec hacq
      constructor
      · rw [hpool] at h1
        simp only [List.length_cons] at h1 ⊢
        omega
      · rw [hsize, h2]
  | rel _ hmem ih =>
      obtain ⟨h1, h2⟩ := ih
      refine ⟨?_, h2⟩
      have hpos := List.length_pos_of_mem hmem
      rw [List.length_erase_of_mem hmem]
      simp only [ModelPool.release, List.length_append, List.length_cons,
        List.length_nil]
      omega

/-- Witness for C1: size 2, one acquire outstanding. -/
theorem pool_invariant_witness :
    ([0] : List Nat).length +
      ({ pool := [1],
         model_instances := [⟨0, 0, false⟩, ⟨1, 0, false⟩],
         pool_size := 2, model_path := none } : ModelPool).pool.length = 2 ∧
    ({ pool := [1],
       model_instances := [⟨0, 0, false⟩, ⟨1, 0, false⟩],
       pool_size := 2, model_path := none } : ModelPool).pool_size = 2 :=
  pool_invariant (Reachable.acq Reachable.init (by rfl))

/-- C5: a `ModelContextManager` block whose entry succeeds releases the
acquired instance exactly once on exit, so the free-list length after the
block equals its length before entry; an error raised by the block still
propagates (`__aexit__` returns `False`). -/
theorem scoped_acquisition_releases {E B : Type} (p : ModelPool)
    (body : Nat → Except E B) (i : Nat) (p1 : ModelPool)
    (hacq : p.acquire = Except.ok (i, p1)) :
    ((ModelContextManager.run p body).2).pool.length = p.pool.length ∧
    ∀ e, body i = Except.error e →
      (ModelContextManager.run p body).1 = Except.error (Sum.inr e) := by
  obtain ⟨hpool, -, -, -⟩ := acquire_ok_spec hacq
  unfold ModelContextManager.run ModelPool.acquire_async
  rw [hacq]
  constructor
  · cases hb : body i <;> simp [hb, ModelPool.release, hpool]
  · intro e he
    simp [he]

/-- Witness for C5: pool of size 1, block raising `"kaboom"`. -/
theorem scoped_acquisition_releases_witness :
    ((ModelContextManager.run (initializedPool 1)
        (fun _ => (Except.error "kaboom" : Except String Nat))).2).pool.length
      = (initializedPool 1).pool.length ∧
    ∀ e, (fun _ => (Except.error "kaboom" : Except String Nat)) 0 = Except.error e →
      (ModelContextManager.run (initializedPool 1)
        (fun _ => (Except.error "kaboom" : Except String Nat))).1
        = Except.error (Sum.inr e) :=
  scoped_acquisition_releases (initializedPool 1)
    (fun _ => (Except.error "kaboom" : Except String Nat)) 0
    { pool := [], model_instances := [⟨0, 0, false⟩], pool_size := 1, model_path := none }
    (by rfl)

/-- The function `bumpUsage` never changes the number of instances. -/
theorem bumpUsage_length (l : List ModelInstance) (j : Nat) :
    (bumpUsage l j).length = l.length := by
  induction l generalizing j with
  | nil => rfl
  | cons hd tl ih => cases j <;> simp [bumpUsage, ih]

/-- One in-range successful predict adds exactly one to the summed usage
counters. -/
theorem bumpUsage_sum (l : List ModelInstance) (j : Nat) (hj : j < l.length) :
    ((bumpUsage l j).map (fun inst => inst.usage_count)).sum
      = (l.map (fun inst => inst.usage_count)).sum + 1 := by
  induction l generalizing j with
  | nil => simp at hj
  | cons hd tl ih =>
      cases j with
      | zero => simp [bumpUsage]; omega
      | succ j =>
          have := ih j (by simpa using hj)
          simp [bumpUsage, this]
          omega

/-- A sequence of successful predicts touches only the usage counters. -/
theorem foldl_recordPredict_components (js : List Nat) (p : ModelPool) :
    (js.foldl ModelPool.recordPredict p).pool = p.pool ∧
    (js.foldl ModelPool.recordPredict p).pool_size = p.pool_size ∧
    (js.foldl ModelPool.recordPredict p).model_path = p.model_path ∧
    (js.foldl ModelPool.recordPredict p).model_instances
      = js.foldl bumpUsage p.model_instances := by
  induction js generalizing p with
  | nil => simp
  | cons j js ih =>
      simpa [ModelPool.recordPredict] using ih (p.recordPredict j)

/-- Any `k` in-range successful predicts add exactly `k` to the summed usage
counters. -/
theorem foldl_bumpUsage_sum (js : List Nat) (l : List ModelInstance)
    (hjs : ∀ j ∈ js, j < l.length) :
    ((js.foldl bumpUsage l).map (fun inst => inst.usage_count)).sum
      = (l.map (fun inst => inst.usage_count)).sum + js.length := by
  induction js generalizing l with
  | nil => simp
  | cons j js ih =>
      have hlen := bumpUsage_length l j
      have h1 := bumpUsage_sum l j (hjs j (by simp))
      have h2 := ih (bumpUsage l j) (fun k hk => hlen ▸ hjs k (by simp [hk]))
      simp only [List.foldl_cons, h2, h1, List.length_cons]
      omega

/-- The state of a freshly initialized pool of size `n`, spelled out. -/
theorem initializedPool_spec (n : Nat) :
    initializedPool n =
      { pool := List.range n,
        model_instances := (List.range n).map (fun i => ⟨i, 0, false⟩),
        pool_size := n, model_path := none } := by
  simp [initializedPool, ModelPool.initialize, ModelPool.populate, ModelPool.empty, baseEnv]

/-- C4 (amended): after `k` successful predict calls distributed in any way
over the instances of an initialized pool of size `n`, `get_stats` reports
`total_predictions = k` and `avg_usage_per_instance = round(k / n, 2)` —
the average is rounded to two decimal places, not the exact rational. -/
theorem stats_after_k_predicts (n : Nat) (js : List Nat) (hn : 0 < n)
    (hjs : ∀ j ∈ js, j < n) :
    (js.foldl ModelPool.recordPredict (initializedPool n)).get_stats.total_predictions
      = js.length ∧
    (js.foldl ModelPool.recordPredict (initializedPool n)).get_stats.avg_usage_per_instance
      = roundTo2 ((js.length : ℚ) / (n : ℚ)) := by
  obtain ⟨hpool, hsize, hpath, hinst⟩ := foldl_recordPredict_components js (initializedPool n)
  have hlen0 : (initializedPool n).model_instances.length = n := by
    simp [initializedPool_spec]
  have hsum0 : ((initializedPool n).model_instances.map (fun inst => inst.usage_count)).sum = 0 := by
    rw [initializedPool_spec]
    simp [List.map_map]
    exact List.sum_eq_zero (by simp [Function.comp])
  have hsum := foldl_bumpUsage_sum js (initializedPool n).model_instances
    (fun j hj => by rw [hlen0]; exact hjs j hj)
  have hsize0 : (initializedPool n).pool_size = n := by simp [initializedPool_spec]
  rw [hsize0] at hsize
  constructor
  · simp [ModelPool.get_stats, hinst, hsum, hsum0]
  · simp [ModelPool.get_stats, hinst, hsum, hsum0, hsize, hn]

/-- Witness for C4 (amended): size 2, one predict on each instance. -/
theorem stats_after_k_predicts_witness :
    (([0, 1] : List Nat).foldl ModelPool.recordPredict (initializedPool 2)).get_stats.total_predictions
      = 2 ∧
    (([0, 1] : List Nat).foldl ModelPool.recordPredict (initializedPool 2)).get_stats.avg_usage_per_instance
      = roundTo2 ((2 : ℚ) / (2 : ℚ)) := by
  have h := stats_after_k_predicts 2 [0, 1] (by decide) (by decide)
  exact h

/-- C4 (counterexample): one successful predict on a pool of size 3 — the
reported average is `round(1/3, 2) = 33/100`, not the exact rational
`1/3`. -/
theorem stats_avg_rounded_counterexample :
    ¬ (((initializedPool 3).recordPredict 0).get_stats.avg_usage_per_instance
        = (1 : ℚ) / 3) := by
  have h1 : ((initializedPool 3).recordPredict 0).get_stats.avg_usage_per_instance
      = roundTo2 ((1 : ℚ) / 3) := by
    rw [initializedPool_spec]
    simp [ModelPool.recordPredict, ModelPool.get_stats, bumpUsage, List.range_succ]
  rw [h1]
  have hf : (⌊(1 : ℚ) / 3 * 100⌋ : ℤ) = 33 := by norm_num
  simp only [roundTo2, roundHalfEven, hf]
  norm_num

/-- A left fold appending one image per element builds the mapped list. -/
theorem foldl_append_map {α β : Type} (f : α → β) :
    ∀ (l : List α) (acc : List β),
      l.foldl (fun acc x => acc ++ [f x]) acc = acc ++ l.map f
  | [], acc => by simp
  | x :: l, acc => by
      simpa using foldl_append_map f l (acc ++ [f x])

/-- C8: `ModelRouter.get_stats` aggregates every registered pool: for each
registered `(tag, pool)` the result holds the entry `(tag, outcome)` where
the outcome is the captured error record when that pool's `get_stats` call
raises and the normal snapshot otherwise — a per-pool failure never aborts
the aggregate or drops other pools. -/
theorem router_stats_isolates_failures (r : ModelRouter)
    (statsOf : ModelPool → Except String StatsSnapshot)
    (t : String) (p : ModelPool) (hmem : (t, p) ∈ r.pools) :
    (t, statsOf p) ∈ (r.get_stats statsOf).pools := by
  unfold ModelRouter.get_stats
  rw [foldl_append_map (fun tp : String × ModelPool => (tp.1, statsOf tp.2)) r.pools []]
  simpa using List.mem_map_of_mem (fun tp : String × ModelPool => (tp.1, statsOf tp.2)) hmem

/-- A two-pool router whose second pool's stats call fails. -/
def demoRouter : ModelRouter :=
  { pools := [("sklearn", initializedPool 2), ("onnx", ModelPool.empty)]
    default_type := "sklearn" }

/-- A stats call that raises exactly on the uninitialized pool. -/
def demoStatsOf : ModelPool → Except String StatsSnapshot :=
  fun p => if p.pool_size = 0 then Except.error "stats failure" else Except.ok p.get_stats

/-- Witness for C8: the failing pool's error is captured under its tag. -/
theorem router_stats_isolates_failures_witness :
    ("onnx", (Except.error "stats failure" : Except String StatsSnapshot))
      ∈ (demoRouter.get_stats demoStatsOf).pools :=
  router_stats_isolates_failures demoRouter demoStatsOf "onnx" ModelPool.empty (by decide)

end ModelServing
